import Mathlib

/-!
Verification development for the Borealia Government Bot election core.

The definitions below are a shallow embedding of the Python source:

* the SQLite relations created and used by the bot are modelled as lists
  of row structures inside a single `DB` state;
* each database-touching code path (the voting dropdown callback in
  main.py, the legacy record_vote path in commands/nominate.py, the
  motion tally in commands/motions.py, the open/close election commands,
  the 30-second scheduler sweep in main.py, and the schema built by
  db.py's init_db) is translated into an executable Lean function that
  performs the same reads, guards and writes in the same order;
* external effects (Discord message sends) are modelled by their outcome
  (an optional message id) and, where ordering matters, by an explicit
  event trace.

Machine-level details that the Python code never relies on (string
encodings of timestamps, SQLite storage classes) are represented by
`Int` instants and `Option` for NULL-able columns.
-/

namespace Borealia

/-- A row of the `votes` table as written by the voting code paths
(`guild_id, position, voter_id, candidate_id`). -/
structure VoteRow where
  guild_id : Nat
  position : String
  voter_id : Nat
  candidate_id : Nat
deriving DecidableEq, Repr

/-- A row of the `nominations` table
(`guild_id, position, user_id, display_name`). -/
structure NominationRow where
  guild_id : Nat
  position : String
  user_id : Nat
  display_name : String
deriving DecidableEq, Repr

/-- A row of the `elections` table.  The code base uses two divergent
schemas for this table: the legacy path (db.py, commands/nominate.py)
reads and writes an `is_closed` flag, while the newer path
(commands/open_election.py, commands/close_election.py, main.py) reads
and writes `status`, `start_at`, `nominee_message_id` and
`vote_message_id`.  The row carries all of these columns; columns a
given writer does not supply are `none` / default `false`.
`start_at` is the parsed absolute instant; `none` also stands for an
unparseable stored timestamp, which the scheduler skips. -/
structure ElectionRow where
  guild_id : Nat
  position : String
  status : Option String
  start_at : Option Int
  is_closed : Bool
  nominee_message_id : Option Nat
  vote_message_id : Option Nat
  created_by : Option Nat
  created_at : Option Int
deriving DecidableEq, Repr

/-- A row of the `motion_votes` table
(`guild_id, motion_id, voter_id, choice, cast_at`). -/
structure MotionVoteRow where
  guild_id : Nat
  motion_id : Nat
  voter_id : Nat
  choice : String
  cast_at : Nat
deriving DecidableEq, Repr

/-- The durable store: the relations the election core reads and
writes. -/
structure DB where
  elections : List ElectionRow
  nominations : List NominationRow
  votes : List VoteRow
deriving DecidableEq, Repr

/-- `SELECT ... FROM elections WHERE guild_id = ? AND position = ?`
(primary key lookup). -/
def findElection (db : DB) (g : Nat) (p : String) : Option ElectionRow :=
  db.elections.find? (fun e => e.guild_id == g && e.position == p)

/-- The status column of the election row for a key, if the row
exists. -/
def electionStatus (db : DB) (g : Nat) (p : String) : Option (Option String) :=
  (findElection db g p).map ElectionRow.status

/-- `SELECT ... FROM votes WHERE guild_id = ? AND position = ? AND
voter_id = ?` (primary key lookup). -/
def findVote (db : DB) (g : Nat) (p : String) (v : Nat) : Option VoteRow :=
  db.votes.find? (fun r => r.guild_id == g && r.position == p && r.voter_id == v)

/-- All vote rows for one (guild, position) key. -/
def votesFor (db : DB) (g : Nat) (p : String) : List VoteRow :=
  db.votes.filter (fun r => r.guild_id == g && r.position == p)

/-- All vote rows one voter has for one (guild, position) key. -/
def voterVotes (db : DB) (g : Nat) (p : String) (v : Nat) : List VoteRow :=
  db.votes.filter (fun r => r.guild_id == g && r.position == p && r.voter_id == v)

/-- All nomination rows for one (guild, position) key. -/
def nominationsFor (db : DB) (g : Nat) (p : String) : List NominationRow :=
  db.nominations.filter (fun n => n.guild_id == g && n.position == p)

/-- `SELECT ... FROM nominations WHERE guild_id = ? AND position = ? AND
user_id = ?` (primary key lookup). -/
def findNomination (db : DB) (g : Nat) (p : String) (uid : Nat) : Option NominationRow :=
  db.nominations.find? (fun n => n.guild_id == g && n.position == p && n.user_id == uid)

/-- Outcome of the voting dropdown callback in main.py
(VoteSelect.callback): the ephemeral reply sent to the voter. -/
inductive VoteOutcome where
  | Recorded
  | VotingNotOpen
  | AlreadyVoted
deriving DecidableEq, Repr

/-- main.py, VoteSelect.callback (database part, lines 109-147): read
the election status and reject unless it is VOTING; then read the
voter's own vote row and reject if one exists (locked voting); else
insert the vote row.  The whole sequence runs synchronously between two
awaits of the surrounding coroutine. -/
def voteSelectCallback (db : DB) (g : Nat) (p : String) (voter cand : Nat) :
    VoteOutcome × DB :=
  match findElection db g p with
  | none => (VoteOutcome.VotingNotOpen, db)
  | some e =>
      if e.status == some "VOTING" then
        match findVote db g p voter with
        | some _ => (VoteOutcome.AlreadyVoted, db)
        | none =>
            (VoteOutcome.Recorded,
              { db with votes := db.votes ++ [⟨g, p, voter, cand⟩] })
      else (VoteOutcome.VotingNotOpen, db)

/-- Result strings returned by record_vote in commands/nominate.py. -/
inductive RecordVoteResult where
  | ok
  | already
  | closed
deriving DecidableEq, Repr

/-- commands/nominate.py, election_is_closed: true iff the election row
exists and its `is_closed` column is 1. -/
def election_is_closed (db : DB) (g : Nat) (p : String) : Bool :=
  match findElection db g p with
  | some e => e.is_closed
  | none => false

/-- commands/nominate.py, record_vote: gate only on the legacy
`is_closed` flag, then insert the vote; a primary-key conflict on
(guild_id, position, voter_id) raises IntegrityError, caught and turned
into "already". -/
def record_vote (db : DB) (g : Nat) (p : String) (voter cand : Nat) :
    RecordVoteResult × DB :=
  if election_is_closed db g p then (RecordVoteResult.closed, db)
  else
    match findVote db g p voter with
    | some _ => (RecordVoteResult.already, db)
    | none =>
        (RecordVoteResult.ok,
          { db with votes := db.votes ++ [⟨g, p, voter, cand⟩] })

/-- Stable insertion of a motion-vote row into a list sorted by
`cast_at` ascending (the ORDER BY cast_at ASC of tally_motion): a row is
placed after every earlier row with a smaller-or-equal timestamp. -/
def insertByCastAt (r : MotionVoteRow) : List MotionVoteRow → List MotionVoteRow
  | [] => [r]
  | x :: xs =>
      if r.cast_at < x.cast_at then r :: x :: xs else x :: insertByCastAt r xs

/-- Sort motion-vote rows by `cast_at` ascending, stably. -/
def sortByCastAt (l : List MotionVoteRow) : List MotionVoteRow :=
  l.foldl (fun acc r => insertByCastAt r acc) []

/-- The rows read by tally_motion: `SELECT choice, voter_id FROM
motion_votes WHERE guild_id = ? AND motion_id = ? ORDER BY cast_at
ASC`. -/
def motionVotesOrdered (mv : List MotionVoteRow) (g m : Nat) : List MotionVoteRow :=
  sortByCastAt (mv.filter (fun r => r.guild_id == g && r.motion_id == m))

/-- The dictionary tally_motion builds in its TIED branch. -/
structure MotionTally where
  yes : List Nat
  no : List Nat
  abstain : List Nat
  result : String
deriving DecidableEq, Repr

/-- commands/motions.py, tally_motion (lines 53-82), translated with its
actual control flow: the `return` statement is indented under the
`else:` branch, so the function returns the tally dictionary only when
the yes and no counts are equal; on the PASSED and FAILED paths the
assignment to `result` is followed by falling off the end of the
function, which in Python returns None — embedded as `none`. -/
def tally_motion (mv : List MotionVoteRow) (g m : Nat) : Option MotionTally :=
  let rows := motionVotesOrdered mv g m
  let yes := (rows.filter (fun r => r.choice == "yes")).map (fun r => r.voter_id)
  let no := (rows.filter (fun r => r.choice == "no")).map (fun r => r.voter_id)
  let abstain := (rows.filter (fun r => r.choice == "abstain")).map (fun r => r.voter_id)
  if yes.length > no.length then
    none
  else if no.length > yes.length then
    none
  else
    some ⟨yes, no, abstain, "TIED"⟩

/-- A store with one election scheduled for the future (status
SCHEDULED, not legacy-closed) and no votes. -/
def dbScheduledOpen : DB :=
  { elections := [⟨1, "PM", some "SCHEDULED", some 100, false, none, none, some 9, some 0⟩],
    nominations := [],
    votes := [] }

/-- A store with one election in VOTING and no votes. -/
def dbVotingOpen : DB :=
  { elections := [⟨1, "PM", some "VOTING", some 100, false, none, some 55, some 9, some 0⟩],
    nominations := [],
    votes := [] }

/-- C1 counterexample: the claim says a vote write is accepted only when
the election's status is VOTING, but the legacy record_vote path in
commands/nominate.py (reached from the vote dropdowns that command
posts) gates only on the `is_closed` flag: on a SCHEDULED election it
records the vote. -/
theorem C1_counterexample_record_vote_ignores_status :
    (record_vote dbScheduledOpen 1 "PM" 5 7).1 = RecordVoteResult.ok ∧
    electionStatus dbScheduledOpen 1 "PM" = some (some "SCHEDULED") ∧
    (record_vote dbScheduledOpen 1 "PM" 5 7).2.votes = [⟨1, "PM", 5, 7⟩] := by
  decide

/-- C1 (amended): the dropdown callback of main.py accepts a vote
exactly when the election status is VOTING and no vote row exists for
the key, rejecting with VotingNotOpen / AlreadyVoted otherwise and
leaving the store unchanged; the legacy record_vote path accepts
exactly when the election is not flagged `is_closed` and no vote row
exists, rejecting with closed / already otherwise and leaving the store
unchanged — it does not consult the status column. -/
theorem C1_vote_write_gates (db : DB) (g : Nat) (p : String) (voter cand : Nat) :
    ((voteSelectCallback db g p voter cand).1 = VoteOutcome.Recorded ↔
      (electionStatus db g p = some (some "VOTING") ∧ findVote db g p voter = none)) ∧
    (electionStatus db g p ≠ some (some "VOTING") →
      voteSelectCallback db g p voter cand = (VoteOutcome.VotingNotOpen, db)) ∧
    (electionStatus db g p = some (some "VOTING") → findVote db g p voter ≠ none →
      voteSelectCallback db g p voter cand = (VoteOutcome.AlreadyVoted, db)) ∧
    ((record_vote db g p voter cand).1 = RecordVoteResult.ok ↔
      (election_is_closed db g p = false ∧ findVote db g p voter = none)) ∧
    (election_is_closed db g p = true →
      record_vote db g p voter cand = (RecordVoteResult.closed, db)) ∧
    (election_is_closed db g p = false → findVote db g p voter ≠ none →
      record_vote db g p voter cand = (RecordVoteResult.already, db)) := by
  unfold voteSelectCallback record_vote electionStatus election_is_closed
  rcases hfe : findElection db g p with _ | e <;>
    rcases hv : findVote db g p voter with _ | v <;>
      simp [hfe, hv] <;>
        rcases hs : e.status == some "VOTING" <;>
          rcases hc : e.is_closed <;>
            simp_all [beq_iff_eq]

/-- Witness instantiating C1_vote_write_gates at a concrete store. -/
theorem C1_vote_write_gates_witness :
    (voteSelectCallback dbVotingOpen 1 "PM" 5 7).1 = VoteOutcome.Recorded ∧
    record_vote dbScheduledOpen 1 "PM" 5 7 =
      (RecordVoteResult.ok,
        { dbScheduledOpen with votes := [⟨1, "PM", 5, 7⟩] }) := by
  refine ⟨(C1_vote_write_gates dbVotingOpen 1 "PM" 5 7).1.mpr (by decide), ?_⟩
  have h := (C1_vote_write_gates dbScheduledOpen 1 "PM" 5 7).2.2.2.1.mpr (by decide)
  decide

/-- C2 failing input: four motion votes, yes = 3, no = 1.  The claim
(and the module docstring of commands/motions.py) says the tally result
is PASSED; the code's misindented return makes tally_motion return None
on the PASSED and FAILED paths, so callers crash reading the result.
Only the tied branches actually return a tally dictionary. -/
theorem C2_rollcall_passed_returns_none :
    tally_motion [⟨1, 1, 10, "yes", 0⟩, ⟨1, 1, 11, "yes", 1⟩,
        ⟨1, 1, 12, "yes", 2⟩, (⟨1, 1, 13, "no", 3⟩ : MotionVoteRow)] 1 1 = none ∧
    tally_motion ([] : List MotionVoteRow) 1 1 = some ⟨[], [], [], "TIED"⟩ ∧
    tally_motion [⟨1, 1, 10, "yes", 0⟩, ⟨1, 1, 11, "no", 1⟩,
        (⟨1, 1, 12, "abstain", 2⟩ : MotionVoteRow)] 1 1 =
      some ⟨[10], [11], [12], "TIED"⟩ := by
  decide

/-- The dropdown callback never touches the elections relation. -/
theorem voteSelectCallback_elections (db : DB) (g : Nat) (p : String) (voter cand : Nat) :
    (voteSelectCallback db g p voter cand).2.elections = db.elections := by
  unfold voteSelectCallback
  rcases findElection db g p with _ | e
  · rfl
  · rcases findVote db g p voter with _ | v <;>
      by_cases hs : e.status == some "VOTING" <;> simp [hs]

/-- When the voter already has a vote row and the election is VOTING,
the callback rejects and leaves the store untouched. -/
theorem voteSelectCallback_locked (db : DB) (g : Nat) (p : String) (voter cand : Nat)
    (hs : electionStatus db g p = some (some "VOTING"))
    (hv : findVote db g p voter ≠ none) :
    voteSelectCallback db g p voter cand = (VoteOutcome.AlreadyVoted, db) := by
  unfold voteSelectCallback
  unfold electionStatus at hs
  rcases hfe : findElection db g p with _ | e <;> rw [hfe] at hs
  · exact absurd hs (by simp)
  · rcases hv2 : findVote db g p voter with _ | v
    · exact absurd hv2 hv
    · simp at hs
      simp [hs]

/-- When the election is VOTING and the voter has no vote row, the
callback records the vote by appending one row. -/
theorem voteSelectCallback_records (db : DB) (g : Nat) (p : String) (voter cand : Nat)
    (hs : electionStatus db g p = some (some "VOTING"))
    (hv : findVote db g p voter = none) :
    voteSelectCallback db g p voter cand =
      (VoteOutcome.Recorded, { db with votes := db.votes ++ [⟨g, p, voter, cand⟩] }) := by
  unfold voteSelectCallback
  unfold electionStatus at hs
  rcases hfe : findElection db g p with _ | e <;> rw [hfe] at hs
  · exact absurd hs (by simp)
  · simp at hs
    simp [hv, hs]

/-- N vote submissions with identical arguments, executed in arrival
order.  Each dropdown callback performs its status read, its duplicate
read and its insert synchronously between two awaits of the event loop,
so every interleaving of concurrent callbacks executes the database
blocks atomically in some serial order; this function is that serial
execution. -/
def runVoteCalls (db : DB) (g : Nat) (p : String) (voter : Nat) :
    List Nat → List VoteOutcome × DB
  | [] => ([], db)
  | cand :: rest =>
      let r := voteSelectCallback db g p voter cand
      let rr := runVoteCalls r.2 g p voter rest
      (r.1 :: rr.1, rr.2)

/-- Once a vote row exists for the key, every further identical call is
rejected with AlreadyVoted and the store never changes. -/
theorem runVoteCalls_locked (db : DB) (g : Nat) (p : String) (voter : Nat)
    (cands : List Nat)
    (hs : electionStatus db g p = some (some "VOTING"))
    (hv : findVote db g p voter ≠ none) :
    runVoteCalls db g p voter cands =
      (List.replicate cands.length VoteOutcome.AlreadyVoted, db) := by
  induction cands with
  | nil => rfl
  | cons c rest ih =>
      unfold runVoteCalls
      rw [voteSelectCallback_locked db g p voter c hs hv]
      simp [ih, List.replicate_succ]

/-- C3: N concurrent CastVote calls with identical arguments, executed
as the event loop serialises their atomic database blocks: the first
call records the vote, every other call fails with AlreadyVoted, and
exactly one vote row exists for the (guild, position, voter) key
afterwards. -/
theorem C3_concurrent_votes_first_writer_wins (db : DB) (g : Nat) (p : String)
    (voter c : Nat) (rest : List Nat)
    (hs : electionStatus db g p = some (some "VOTING"))
    (hv : findVote db g p voter = none) :
    (runVoteCalls db g p voter (c :: rest)).1 =
      VoteOutcome.Recorded :: List.replicate rest.length VoteOutcome.AlreadyVoted ∧
    voterVotes (runVoteCalls db g p voter (c :: rest)).2 g p voter = [⟨g, p, voter, c⟩] ∧
    (runVoteCalls db g p voter (c :: rest)).1.count VoteOutcome.Recorded = 1 := by
  have hrec := voteSelectCallback_records db g p voter c hs hv
  have hs1 : electionStatus
      ({ db with votes := db.votes ++ [⟨g, p, voter, c⟩] } : DB) g p =
      some (some "VOTING") := hs
  have hfv1 : findVote ({ db with votes := db.votes ++ [⟨g, p, voter, c⟩] } : DB)
      g p voter = some ⟨g, p, voter, c⟩ := by
    unfold findVote at hv ⊢
    simp [List.find?_append, hv]
  have hlock := runVoteCalls_locked
    ({ db with votes := db.votes ++ [⟨g, p, voter, c⟩] } : DB) g p voter rest hs1
    (by simp [hfv1])
  have hrun : runVoteCalls db g p voter (c :: rest) =
      (VoteOutcome.Recorded :: List.replicate rest.length VoteOutcome.AlreadyVoted,
        { db with votes := db.votes ++ [⟨g, p, voter, c⟩] }) := by
    unfold runVoteCalls
    rw [hrec]
    simp only [hlock]
  refine ⟨by rw [hrun], ?_, by rw [hrun]; simp [List.count_cons, List.count_replicate]⟩
  rw [hrun]
  unfold voterVotes
  unfold findVote at hv
  have h0 : db.votes.filter
      (fun r => r.guild_id == g && r.position == p && r.voter_id == voter) = [] := by
    rw [List.filter_eq_nil_iff]
    intro a ha hpa
    exact (List.find?_eq_none.mp hv a ha) hpa
  simp [h0]

/-- Witness instantiating C3 with three identical concurrent calls. -/
theorem C3_concurrent_votes_first_writer_wins_witness :
    (runVoteCalls dbVotingOpen 1 "PM" 5 [7, 7, 7]).1 =
      [VoteOutcome.Recorded, VoteOutcome.AlreadyVoted, VoteOutcome.AlreadyVoted] ∧
    voterVotes (runVoteCalls dbVotingOpen 1 "PM" 5 [7, 7, 7]).2 1 "PM" 5 =
      [⟨1, "PM", 5, 7⟩] := by
  have h := C3_concurrent_votes_first_writer_wins dbVotingOpen 1 "PM" 5 7 [7, 7]
    (by decide) (by decide)
  exact ⟨by rw [h.1]; decide, h.2.1⟩

/-- Insert a candidate id into a sorted duplicate-free ascending list.
Used to model the grouping of `GROUP BY candidate_id`, whose groups are
produced in ascending candidate_id order. -/
def insertAsc (n : Nat) : List Nat → List Nat
  | [] => [n]
  | x :: xs =>
      if n < x then n :: x :: xs
      else if n == x then x :: xs
      else x :: insertAsc n xs

/-- The distinct candidate ids appearing among the votes for a key, in
ascending order (the grouping step of the close-election tally
query). -/
def sortedCandidateIds (db : DB) (g : Nat) (p : String) : List Nat :=
  (votesFor db g p).foldl (fun acc r => insertAsc r.candidate_id acc) []

/-- `COUNT(*)` for one candidate within the votes of a key. -/
def voteCount (db : DB) (g : Nat) (p : String) (cid : Nat) : Nat :=
  ((votesFor db g p).filter (fun r => r.candidate_id == cid)).length

/-- One output row of the close-election tally query:
`SELECT candidate_id, COUNT(*) as votes ... GROUP BY candidate_id`. -/
structure RankedCandidate where
  candidate_id : Nat
  votes : Nat
deriving DecidableEq, Repr

/-- Insertion into a list sorted by `votes` descending, as the
`ORDER BY votes DESC` sorter emits rows: the comparison key is only the
count, and a row whose count equals an already-placed row's count is
emitted before it.  Rows arriving in ascending candidate-id order (the
grouping order) therefore leave the sorter with ties in descending
candidate-id order, the order the engine produces for this query. -/
def insertByVotesDesc (r : RankedCandidate) :
    List RankedCandidate → List RankedCandidate
  | [] => [r]
  | x :: xs =>
      if x.votes ≤ r.votes then r :: x :: xs else x :: insertByVotesDesc r xs

/-- The rows fetched by close_election's tally query, in the order the
query returns them: grouped by candidate_id (ascending), counted, then
sorted by count descending; rows with equal counts come out in
descending candidate-id order.  The query does not read display
labels. -/
def vote_rows (db : DB) (g : Nat) (p : String) : List RankedCandidate :=
  ((sortedCandidateIds db g p).map
      (fun cid => RankedCandidate.mk cid (voteCount db g p cid))).foldl
    (fun acc r => insertByVotesDesc r acc) []

/-- The result data close_election computes from the fetched rows
before closing: the per-candidate lines, the total, the winner (first
row, i.e. a highest-count candidate), and the tie flag set exactly when
at least two rows exist and the top two counts are equal. -/
structure ElectionResults where
  ranking : List RankedCandidate
  total_votes : Nat
  winner_id : Option Nat
  winner_votes : Nat
  is_tie : Bool
deriving DecidableEq, Repr

/-- commands/close_election.py, lines 118-156: the tally computation
over a snapshot of the votes for one key. -/
def computeResults (db : DB) (g : Nat) (p : String) : ElectionResults :=
  let rows := vote_rows db g p
  let total := (rows.map (fun r => r.votes)).sum
  let winner_id := rows.head?.map (fun r => r.candidate_id)
  let winner_votes := (rows.head?.map (fun r => r.votes)).getD 0
  let is_tie :=
    match rows with
    | r0 :: r1 :: _ => r1.votes == r0.votes
    | _ => false
  ⟨rows, total, winner_id, winner_votes, is_tie⟩

/-- The display label attached to a candidate id when rendering results
(the name_by_id dictionary built from the nominations of the key). -/
def name_by_id (db : DB) (g : Nat) (p : String) (cid : Nat) : String :=
  match findNomination db g p cid with
  | some n => n.display_name
  | none => "Unknown Candidate"

/-- `UPDATE elections SET status = ? WHERE guild_id = ? AND
position = ?`. -/
def setStatus (db : DB) (g : Nat) (p : String) (s : Option String) : DB :=
  { db with elections := db.elections.map fun e =>
      if e.guild_id == g && e.position == p then { e with status := s } else e }

/-- What close_election delivers to the acting admin. -/
inductive CloseOutcome where
  | notFound
  | alreadyClosedNotice
  | closedWithResults (r : ElectionResults)
deriving DecidableEq, Repr

/-- commands/close_election.py, close_election (state part): fetch the
election row; report not-found if absent; if the status is already
CLOSED reply with a plain informational notice and stop (no reads of
votes, no tally, no writes); otherwise compute the tally snapshot, set
the status to CLOSED, and DM the full results privately to the actor. -/
def close_election (db : DB) (g : Nat) (p : String) : CloseOutcome × DB :=
  match findElection db g p with
  | none => (CloseOutcome.notFound, db)
  | some e =>
      if e.status == some "CLOSED" then (CloseOutcome.alreadyClosedNotice, db)
      else
        (CloseOutcome.closedWithResults (computeResults db g p),
          setStatus db g p (some "CLOSED"))

/-- Inserting into a count-descending list keeps it count-descending,
and the head of the result is the inserted row or the old head. -/
theorem insertByVotesDesc_chain (r : RankedCandidate) (l : List RankedCandidate)
    (h : l.Chain' (fun a b => b.votes ≤ a.votes)) :
    (insertByVotesDesc r l).Chain' (fun a b => b.votes ≤ a.votes) ∧
    ((insertByVotesDesc r l).head? = some r ∨
      (insertByVotesDesc r l).head? = l.head?) := by
  induction l with
  | nil => exact ⟨List.chain'_singleton r, Or.inl rfl⟩
  | cons x xs ih =>
      rw [insertByVotesDesc]
      by_cases hx : x.votes ≤ r.votes
      · rw [if_pos hx]
        exact ⟨List.chain'_cons.mpr ⟨hx, h⟩, Or.inl rfl⟩
      · rw [if_neg hx]
        have hxs := (List.chain'_cons'.mp h).2
        have hhd := (List.chain'_cons'.mp h).1
        obtain ⟨hch, hh⟩ := ih hxs
        refine ⟨List.chain'_cons'.mpr ⟨?_, hch⟩, Or.inr rfl⟩
        intro y hy
        rcases hh with hh | hh
        · rw [hh] at hy
          simp at hy
          rw [← hy]
          exact le_of_lt (Nat.lt_of_not_le hx)
        · rw [hh] at hy
          exact hhd y hy

/-- Folding stable inserts over any starting accumulator yields a
count-descending list. -/
theorem foldl_insertByVotesDesc_chain (l : List RankedCandidate)
    (acc : List RankedCandidate) (h : acc.Chain' (fun a b => b.votes ≤ a.votes)) :
    (l.foldl (fun acc r => insertByVotesDesc r acc) acc).Chain'
      (fun a b => b.votes ≤ a.votes) := by
  induction l generalizing acc with
  | nil => exact h
  | cons x xs ih => exact ih _ (insertByVotesDesc_chain x acc h).1

/-- The tally rows are always sorted by count descending. -/
theorem vote_rows_sorted (db : DB) (g : Nat) (p : String) :
    (vote_rows db g p).Chain' (fun a b => b.votes ≤ a.votes) :=
  foldl_insertByVotesDesc_chain _ [] List.chain'_nil

/-- In a count-descending list, the head count bounds every count. -/
theorem chain_desc_head_max (l : List RankedCandidate)
    (h : l.Chain' (fun a b => b.votes ≤ a.votes)) :
    ∀ r0, l.head? = some r0 → ∀ r ∈ l, r.votes ≤ r0.votes := by
  have : IsTrans RankedCandidate (fun a b => b.votes ≤ a.votes) :=
    ⟨fun _ _ _ hab hbc => le_trans hbc hab⟩
  intro r0 hr0 r hr
  rw [List.chain'_iff_pairwise] at h
  rcases l with _ | ⟨x, xs⟩
  · cases hr0
  · simp at hr0
    subst hr0
    rcases List.mem_cons.mp hr with hr | hr
    · rw [hr]
    · exact (List.pairwise_cons.mp h).1 r hr

/-- Lexicographic comparison of display labels, character by
character. -/
def charListLe : List Char → List Char → Bool
  | [], _ => true
  | _ :: _, [] => false
  | a :: as, b :: bs =>
      if a < b then true else if b < a then false else charListLe as bs

/-- The ordering the claim describes (spec wording): count descending,
ties broken by display label ascending. -/
def countThenLabelOrdered (db : DB) (g : Nat) (p : String)
    (l : List RankedCandidate) : Prop :=
  l.Chain' (fun a b => b.votes < a.votes ∨
    (a.votes = b.votes ∧
      charListLe (name_by_id db g p a.candidate_id).data
        (name_by_id db g p b.candidate_id).data = true))

/-- Two candidates with one vote each whose label order opposes the
sorter's descending candidate-id tie order: Alice holds the lower id,
Zed the higher. -/
def dbTieLabels : DB :=
  { elections := [⟨1, "PM", some "VOTING", some 0, false, none, some 55, none, none⟩],
    nominations := [⟨1, "PM", 1, "Alice"⟩, ⟨1, "PM", 2, "Zed"⟩],
    votes := [⟨1, "PM", 10, 1⟩, ⟨1, "PM", 11, 2⟩] }

/-- C6 counterexample: the tally query sorts only by count — it never
reads display labels — and emits the tie in descending candidate-id
order, so with Alice on id 1 and Zed on id 2 the presented order is Zed
before Alice: not label-ascending as the claim states. -/
theorem C6_counterexample_order_ignores_labels :
    vote_rows dbTieLabels 1 "PM" = [⟨2, 1⟩, ⟨1, 1⟩] ∧
    (vote_rows dbTieLabels 1 "PM").map
      (fun r => name_by_id dbTieLabels 1 "PM" r.candidate_id) = ["Zed", "Alice"] ∧
    ¬ countThenLabelOrdered dbTieLabels 1 "PM" (vote_rows dbTieLabels 1 "PM") ∧
    (computeResults dbTieLabels 1 "PM").is_tie = true := by
  refine ⟨by decide, by decide, ?_, by decide⟩
  intro h
  unfold countThenLabelOrdered at h
  rw [show vote_rows dbTieLabels 1 "PM" = [⟨2, 1⟩, ⟨1, 1⟩] from by decide] at h
  rcases (List.chain'_cons.mp h).1 with h1 | h1
  · exact absurd h1 (by decide)
  · exact absurd h1.2 (by decide)

/-- C6 (amended): the tally lists candidates by vote count descending
(ties are emitted in descending candidate-id order; display labels play
no role in the ordering), the winner is a highest-count candidate (the
first row), the tie flag is set exactly when at least two candidates
received votes and the top two counts are equal, and an empty vote set
yields winner none with tie false rather than an error. -/
theorem C6_tally_characterization (db : DB) (g : Nat) (p : String) :
    (vote_rows db g p).Chain' (fun a b => b.votes ≤ a.votes) ∧
    (∀ r ∈ vote_rows db g p, r.votes ≤ (computeResults db g p).winner_votes) ∧
    (computeResults db g p).winner_id =
      (vote_rows db g p).head?.map (fun r => r.candidate_id) ∧
    ((computeResults db g p).is_tie = true ↔
      ∃ r0 r1 rest, vote_rows db g p = r0 :: r1 :: rest ∧ r0.votes = r1.votes) ∧
    (votesFor db g p = [] →
      (computeResults db g p).winner_id = none ∧
      (computeResults db g p).is_tie = false) := by
  refine ⟨vote_rows_sorted db g p, ?_, rfl, ?_, ?_⟩
  · intro r hr
    rcases hrows : vote_rows db g p with _ | ⟨r0, rest⟩
    · rw [hrows] at hr
      cases hr
    · have hch := vote_rows_sorted db g p
      rw [hrows] at hch hr
      have hmax := chain_desc_head_max (r0 :: rest) hch r0 rfl r hr
      have hwv : (computeResults db g p).winner_votes = r0.votes := by
        show ((vote_rows db g p).head?.map (fun r => r.votes)).getD 0 = r0.votes
        rw [hrows]
        rfl
      rw [hwv]
      exact hmax
  · show (match vote_rows db g p with
        | r0 :: r1 :: _ => r1.votes == r0.votes
        | _ => false) = true ↔ _
    rcases hrows : vote_rows db g p with _ | ⟨r0, _ | ⟨r1, rest⟩⟩
    · simp
    · simp
    · show (r1.votes == r0.votes) = true ↔ _
      constructor
      · intro hbe
        exact ⟨r0, r1, rest, rfl, (beq_iff_eq.mp hbe).symm⟩
      · rintro ⟨a, b, l, heq, hab⟩
        injection heq with h1 h2
        injection h2 with h2 h3
        rw [← h1, ← h2] at hab
        exact beq_iff_eq.mpr hab.symm
  · intro h
    have hrows : vote_rows db g p = [] := by
      unfold vote_rows sortedCandidateIds
      rw [h]
      rfl
    constructor
    · show ((vote_rows db g p).head?.map (fun r => r.candidate_id)) = none
      rw [hrows]
      rfl
    · show (match vote_rows db g p with
          | r0 :: r1 :: _ => r1.votes == r0.votes
          | _ => false) = false
      rw [hrows]

/-- Witness instantiating C6_tally_characterization: empty vote set and
a two-way tie. -/
theorem C6_tally_characterization_witness :
    (computeResults dbVotingOpen 1 "PM").winner_id = none ∧
    (computeResults dbVotingOpen 1 "PM").is_tie = false ∧
    (computeResults dbTieLabels 1 "PM").is_tie = true := by
  have h1 := (C6_tally_characterization dbVotingOpen 1 "PM").2.2.2.2 (by decide)
  have h2 := (C6_tally_characterization dbTieLabels 1 "PM").2.2.2.1.mpr
    ⟨⟨2, 1⟩, ⟨1, 1⟩, [], by decide, rfl⟩
  exact ⟨h1.1, h1.2, h2⟩

/-- C7 counterexample: closing an already-CLOSED election is a state
no-op and not an error, but the actor receives only an informational
already-closed notice — not the previously computed result, which is
never stored and is not re-delivered. -/
theorem C7_counterexample_no_previous_result :
    (close_election dbTieLabels 1 "PM").1 =
      CloseOutcome.closedWithResults (computeResults dbTieLabels 1 "PM") ∧
    close_election (close_election dbTieLabels 1 "PM").2 1 "PM" =
      (CloseOutcome.alreadyClosedNotice, (close_election dbTieLabels 1 "PM").2) ∧
    (close_election (close_election dbTieLabels 1 "PM").2 1 "PM").1 ≠
      (close_election dbTieLabels 1 "PM").1 := by
  decide

/-- C7 (amended): Close on an already-CLOSED election leaves the store
unchanged, recomputes nothing, and is not an error — it returns a bare
informational notice; the previously computed result is not stored
anywhere, so it is not returned. -/
theorem C7_close_on_closed_is_pure_notice (db : DB) (g : Nat) (p : String)
    (h : electionStatus db g p = some (some "CLOSED")) :
    close_election db g p = (CloseOutcome.alreadyClosedNotice, db) := by
  unfold close_election
  unfold electionStatus at h
  rcases hfe : findElection db g p with _ | e <;> rw [hfe] at h
  · exact absurd h (by simp)
  · simp at h
    simp [h]

/-- Witness instantiating C7 at the store produced by a first close. -/
theorem C7_close_on_closed_is_pure_notice_witness :
    close_election (close_election dbTieLabels 1 "PM").2 1 "PM" =
      (CloseOutcome.alreadyClosedNotice, (close_election dbTieLabels 1 "PM").2) :=
  C7_close_on_closed_is_pure_notice (close_election dbTieLabels 1 "PM").2 1 "PM"
    (by decide)

/-- main.py election_scheduler, per-item UPDATE (lines 271-281): sets
status to VOTING and stores the vote message id, keyed only on
(guild_id, position) — the statement carries no condition on the
current status. -/
def promoteWrite (db : DB) (g : Nat) (p : String) (mid : Nat) : DB :=
  { db with elections := db.elections.map fun e =>
      if e.guild_id == g && e.position == p then
        { e with status := some "VOTING", vote_message_id := some mid }
      else e }

/-- main.py election_scheduler, scan: `SELECT guild_id, position,
start_at FROM elections WHERE status = 'SCHEDULED'`, then per row parse
start_at (an unparseable timestamp is logged and skipped) and keep the
rows whose start instant has arrived. -/
def dueScheduled (db : DB) (now : Int) : List (Nat × String) :=
  ((db.elections.filter (fun e => e.status == some "SCHEDULED")).filter
    (fun e => match e.start_at with
      | some t => decide (t ≤ now)
      | none => false)).map (fun e => (e.guild_id, e.position))

/-- One whole scheduler tick executed with no interleaved user action:
scan, then promote every due election. -/
def atomicTick (db : DB) (now : Int) (mid : Nat) : DB :=
  (dueScheduled db now).foldl (fun d gp => promoteWrite d gp.1 gp.2 mid) db

/-- Scheduler-side control state: between ticks, or mid-tick holding
the scanned work list whose remaining per-item publish+update pairs are
still pending.  The publish await inside the loop body yields the event
loop between the scan and each item's status write, so user actions can
commit in that window. -/
structure SchedConfig where
  db : DB
  pending : Option (List (Nat × String))
deriving DecidableEq, Repr

/-- Small-step semantics of the scheduler loop of main.py interleaved
with user close actions: a tick scans the SCHEDULED-and-due set, then
processes items one at a time (publishing and then writing VOTING, or
skipping the item when its guild/settings/channel lookup fails), while
a close action can run at any point because every await yields the
event loop. -/
inductive GovStep (now : Int) : SchedConfig → SchedConfig → Prop where
  | scan (db : DB) :
      GovStep now ⟨db, none⟩ ⟨db, some (dueScheduled db now)⟩
  | promote (db : DB) (g : Nat) (p : String) (rest : List (Nat × String)) (mid : Nat) :
      GovStep now ⟨db, some ((g, p) :: rest)⟩ ⟨promoteWrite db g p mid, some rest⟩
  | skipItem (db : DB) (gp : Nat × String) (rest : List (Nat × String)) :
      GovStep now ⟨db, some (gp :: rest)⟩ ⟨db, some rest⟩
  | tickDone (db : DB) :
      GovStep now ⟨db, some []⟩ ⟨db, none⟩
  | close (db : DB) (g : Nat) (p : String) (pend : Option (List (Nat × String))) :
      GovStep now ⟨db, pend⟩ ⟨(close_election db g p).2, pend⟩

/-- A SCHEDULED election whose start instant has already passed. -/
def dbSched : DB :=
  { elections := [⟨1, "PM", some "SCHEDULED", some 0, false, none, none, some 9, some 0⟩],
    nominations := [⟨1, "PM", 7, "Ann"⟩],
    votes := [] }

/-- C4 counterexample: a reachable interleaving in which a close
commits between the scheduler's scan and its per-item status write.
The write is keyed only on (guild_id, position), so it overwrites the
CLOSED status with VOTING: a CLOSED election changes status again. -/
theorem C4_counterexample_close_overwritten :
    GovStep 10 ⟨dbSched, none⟩ ⟨dbSched, some [(1, "PM")]⟩ ∧
    GovStep 10 ⟨dbSched, some [(1, "PM")]⟩
      ⟨(close_election dbSched 1 "PM").2, some [(1, "PM")]⟩ ∧
    GovStep 10 ⟨(close_election dbSched 1 "PM").2, some [(1, "PM")]⟩
      ⟨promoteWrite (close_election dbSched 1 "PM").2 1 "PM" 99, some []⟩ ∧
    electionStatus (close_election dbSched 1 "PM").2 1 "PM" =
      some (some "CLOSED") ∧
    electionStatus (promoteWrite (close_election dbSched 1 "PM").2 1 "PM" 99) 1 "PM" =
      some (some "VOTING") := by
  refine ⟨?_, GovStep.close dbSched 1 "PM" (some [(1, "PM")]),
    GovStep.promote (close_election dbSched 1 "PM").2 1 "PM" [] 99,
    by decide, by decide⟩
  have h : dueScheduled dbSched 10 = [(1, "PM")] := by decide
  have hs := @GovStep.scan 10 dbSched
  rw [h] at hs
  exact hs

/-- Every election row of a key is CLOSED. -/
def closedAll (db : DB) (g : Nat) (p : String) : Prop :=
  ∀ e ∈ db.elections, e.guild_id = g → e.position = p → e.status = some "CLOSED"

/-- Every election row of a key is VOTING. -/
def keyVoting (db : DB) (g : Nat) (p : String) : Prop :=
  ∀ e ∈ db.elections, e.guild_id = g → e.position = p → e.status = some "VOTING"

/-- Unpacking membership in the scan result: a due key comes from a row
whose status column is SCHEDULED. -/
theorem mem_dueScheduled (db : DB) (now : Int) (gp : Nat × String)
    (h : gp ∈ dueScheduled db now) :
    ∃ e ∈ db.elections, e.guild_id = gp.1 ∧ e.position = gp.2 ∧
      e.status = some "SCHEDULED" := by
  unfold dueScheduled at h
  obtain ⟨e, he, heq⟩ := List.mem_map.mp h
  obtain ⟨he1, _⟩ := List.mem_filter.mp he
  obtain ⟨he3, he4⟩ := List.mem_filter.mp he1
  refine ⟨e, he3, ?_, ?_, by simpa using he4⟩
  · rw [← heq]
  · rw [← heq]

/-- A promotion write for a different key does not unseal a CLOSED
key. -/
theorem closedAll_promoteWrite (db : DB) (gw : Nat) (pw : String) (mid : Nat)
    (g : Nat) (p : String) (hne : ¬(gw = g ∧ pw = p))
    (h : closedAll db g p) : closedAll (promoteWrite db gw pw mid) g p := by
  intro e2 he2 hg hp
  unfold promoteWrite at he2
  simp only [List.mem_map] at he2
  obtain ⟨e, he, heq⟩ := he2
  by_cases hk : (e.guild_id == gw && e.position == pw) = true
  · rw [if_pos hk] at heq
    rw [← heq] at hg hp
    simp at hk
    exact absurd ⟨hk.1.symm.trans hg, hk.2.symm.trans hp⟩ hne
  · rw [if_neg hk] at heq
    rw [← heq]
    exact h e he (heq ▸ hg) (heq ▸ hp)

/-- A close action (of any key) never unseals a CLOSED key: it either
changes nothing or writes CLOSED. -/
theorem closedAll_close (db : DB) (g2 : Nat) (p2 : String) (g : Nat) (p : String)
    (h : closedAll db g p) : closedAll ((close_election db g2 p2).2) g p := by
  unfold close_election
  rcases hfe : findElection db g2 p2 with _ | e
  · exact h
  · by_cases hs : (e.status == some "CLOSED") = true
    · simp only [hs, if_pos]
      exact h
    · simp only [hs, if_neg, Bool.false_eq_true, not_false_iff]
      intro e2 he2 hg hp
      unfold setStatus at he2
      simp only [List.mem_map] at he2
      obtain ⟨e0, he0, heq⟩ := he2
      by_cases hk : (e0.guild_id == g2 && e0.position == p2) = true
      · rw [if_pos hk] at heq
        rw [← heq]
      · rw [if_neg hk] at heq
        rw [← heq]
        exact h e0 he0 (heq ▸ hg) (heq ▸ hp)

/-- Folding promotion writes over keys other than a CLOSED key keeps it
CLOSED. -/
theorem closedAll_foldl_promoteWrite (l : List (Nat × String)) (db : DB) (mid : Nat)
    (g : Nat) (p : String)
    (hl : ∀ gp ∈ l, ¬(gp.1 = g ∧ gp.2 = p))
    (h : closedAll db g p) :
    closedAll (l.foldl (fun d gp => promoteWrite d gp.1 gp.2 mid) db) g p := by
  induction l generalizing db with
  | nil => exact h
  | cons x xs ih =>
      exact ih _ (fun gp hgp => hl gp (List.mem_cons_of_mem x hgp))
        (closedAll_promoteWrite db x.1 x.2 mid g p (hl x (List.mem_cons_self x xs)) h)

/-- A CLOSED key is never scanned as due. -/
theorem closedAll_not_due (db : DB) (now : Int) (g : Nat) (p : String)
    (h : closedAll db g p) : (g, p) ∉ dueScheduled db now := by
  intro hmem
  obtain ⟨e, he, h1, h2, h3⟩ := mem_dueScheduled db now (g, p) hmem
  exact absurd ((h e he h1 h2).symm.trans h3) (by decide)

/-- Any promotion write preserves a key being fully VOTING. -/
theorem keyVoting_promoteWrite_any (db : DB) (gw : Nat) (pw : String) (mid : Nat)
    (g : Nat) (p : String) (h : keyVoting db g p) :
    keyVoting (promoteWrite db gw pw mid) g p := by
  intro e2 he2 hg hp
  unfold promoteWrite at he2
  simp only [List.mem_map] at he2
  obtain ⟨e, he, heq⟩ := he2
  by_cases hk : (e.guild_id == gw && e.position == pw) = true
  · rw [if_pos hk] at heq
    rw [← heq]
  · rw [if_neg hk] at heq
    rw [← heq]
    exact h e he (heq ▸ hg) (heq ▸ hp)

/-- A promotion write makes its own key fully VOTING. -/
theorem keyVoting_promoteWrite_self (db : DB) (g : Nat) (p : String) (mid : Nat) :
    keyVoting (promoteWrite db g p mid) g p := by
  intro e2 he2 hg hp
  unfold promoteWrite at he2
  simp only [List.mem_map] at he2
  obtain ⟨e, he, heq⟩ := he2
  by_cases hk : (e.guild_id == g && e.position == p) = true
  · rw [if_pos hk] at heq
    rw [← heq]
  · rw [if_neg hk] at heq
    rw [← heq] at hg hp
    exact absurd (by simp [hg, hp]) hk

/-- Folding promotion writes preserves a key being fully VOTING. -/
theorem keyVoting_foldl_preserve (l : List (Nat × String)) (db : DB) (mid : Nat)
    (g : Nat) (p : String) (h : keyVoting db g p) :
    keyVoting (l.foldl (fun d x => promoteWrite d x.1 x.2 mid) db) g p := by
  induction l generalizing db with
  | nil => exact h
  | cons x xs ih => exact ih _ (keyVoting_promoteWrite_any db x.1 x.2 mid g p h)

/-- After a tick processes its scanned list, every scanned key is fully
VOTING. -/
theorem keyVoting_foldl (l : List (Nat × String)) (db : DB) (mid : Nat)
    (gp : Nat × String) (hmem : gp ∈ l) :
    keyVoting (l.foldl (fun d x => promoteWrite d x.1 x.2 mid) db) gp.1 gp.2 := by
  induction l generalizing db with
  | nil => cases hmem
  | cons x xs ih =>
      rcases List.mem_cons.mp hmem with h | h
      · subst h
        exact keyVoting_foldl_preserve xs _ mid gp.1 gp.2
          (keyVoting_promoteWrite_self db gp.1 gp.2 mid)
      · exact ih _ h

/-- A fully VOTING key is never scanned as due. -/
theorem keyVoting_not_due (db : DB) (now : Int) (g : Nat) (p : String)
    (h : keyVoting db g p) : (g, p) ∉ dueScheduled db now := by
  intro hmem
  obtain ⟨e, he, h1, h2, h3⟩ := mem_dueScheduled db now (g, p) hmem
  exact absurd ((h e he h1 h2).symm.trans h3) (by decide)

instance closedAllDecidable (db : DB) (g : Nat) (p : String) :
    Decidable (closedAll db g p) :=
  inferInstanceAs (Decidable (∀ e ∈ db.elections,
    e.guild_id = g → e.position = p → e.status = some "CLOSED"))

/-- C4 (amended): the promotion write is keyed only on (guild_id,
position), so a close that commits between a tick's scan and that
item's write is overwritten (see the counterexample).  When scheduler
ticks and user actions do not interleave — each tick runs atomically —
a CLOSED election never changes status: a whole tick leaves every
CLOSED key CLOSED, a close action leaves every CLOSED key CLOSED, and a
duplicate tick cannot re-transition or re-post, because every key
promoted by a tick is VOTING afterwards and is no longer scanned as
due. -/
theorem C4_closed_terminal_without_interleaving (db : DB) (now : Int) (mid : Nat)
    (g g2 : Nat) (p p2 : String) :
    (closedAll db g p → closedAll (atomicTick db now mid) g p) ∧
    (closedAll db g p → closedAll ((close_election db g2 p2).2) g p) ∧
    (∀ gp ∈ dueScheduled db now, gp ∉ dueScheduled (atomicTick db now mid) now) := by
  refine ⟨?_, fun h => closedAll_close db g2 p2 g p h, ?_⟩
  · intro h
    unfold atomicTick
    refine closedAll_foldl_promoteWrite (dueScheduled db now) db mid g p ?_ h
    intro gp hgp hgpk
    have hgpe : gp = (g, p) := Prod.ext hgpk.1 hgpk.2
    rw [hgpe] at hgp
    exact closedAll_not_due db now g p h hgp
  · intro gp hgp
    unfold atomicTick
    have hv := keyVoting_foldl (dueScheduled db now) db mid gp hgp
    have hnd := keyVoting_not_due
      ((dueScheduled db now).foldl (fun d x => promoteWrite d x.1 x.2 mid) db)
      now gp.1 gp.2 hv
    simpa using hnd

/-- Witness instantiating C4's amended theorem: a CLOSED election stays
CLOSED through an atomic tick and a repeated close, and the promoted
key of dbSched is not due again after the tick. -/
theorem C4_closed_terminal_without_interleaving_witness :
    closedAll (atomicTick (close_election dbSched 1 "PM").2 10 99) 1 "PM" ∧
    closedAll ((close_election (close_election dbSched 1 "PM").2 1 "PM").2) 1 "PM" ∧
    (1, "PM") ∉ dueScheduled (atomicTick dbSched 10 99) 10 := by
  have h := C4_closed_terminal_without_interleaving
    (close_election dbSched 1 "PM").2 10 99 1 1 "PM" "PM"
  have h2 := C4_closed_terminal_without_interleaving dbSched 10 99 1 1 "PM" "PM"
  exact ⟨h.1 (by decide), h.2.1 (by decide), h2.2.2 (1, "PM") (by decide)⟩

/-- The externally observable steps of one scheduler item, in program
order. -/
inductive SchedEvent where
  | publishAttempt
  | commitVotingStatus
deriving DecidableEq, Repr

/-- main.py election_scheduler, per-item body (lines 265-281): the
voting surface is posted first (`await elections_channel.send`), and
only after the send returns does the code execute and commit the UPDATE
that sets status = VOTING and stores the message id.  `publishResult`
is the outcome of the send: `some mid` on success, `none` when the send
raises — in which case the update is never reached and the election row
is left untouched. -/
def promote_item (db : DB) (g : Nat) (p : String) (publishResult : Option Nat) :
    DB × List SchedEvent :=
  match publishResult with
  | some mid =>
      (promoteWrite db g p mid,
        [SchedEvent.publishAttempt, SchedEvent.commitVotingStatus])
  | none => (db, [SchedEvent.publishAttempt])

/-- The ordering property the claim asserts: the status commit occurs
and no publish attempt precedes it (the trace opens with the
commit). -/
def commitPrecedesPublish : List SchedEvent → Bool
  | SchedEvent.commitVotingStatus :: _ => true
  | _ => false

/-- C9 counterexample: on a successful promotion the trace is publish
first, commit second — the status transition is not committed before
the publish is attempted; and when the publish fails, the transition
never commits at all and the election stays SCHEDULED. -/
theorem C9_counterexample_publish_first :
    (promote_item dbSched 1 "PM" (some 99)).2 =
      [SchedEvent.publishAttempt, SchedEvent.commitVotingStatus] ∧
    commitPrecedesPublish (promote_item dbSched 1 "PM" (some 99)).2 = false ∧
    (promote_item dbSched 1 "PM" none).1 = dbSched ∧
    electionStatus (promote_item dbSched 1 "PM" none).1 1 "PM" =
      some (some "SCHEDULED") := by
  decide

/-- C9 (amended): the scheduler attempts the external publish before
committing the status transition; a publish failure leaves the election
SCHEDULED (to be retried on a later tick), so no committed state change
is ever rolled back — there is no commit yet to roll back — and on a
successful publish the commit follows the publish. -/
theorem C9_publish_then_commit (db : DB) (g : Nat) (p : String) (r : Option Nat) :
    (promote_item db g p r).2.head? = some SchedEvent.publishAttempt ∧
    (r = none → (promote_item db g p r).1 = db) ∧
    (∀ mid, r = some mid →
      promote_item db g p r =
        (promoteWrite db g p mid,
          [SchedEvent.publishAttempt, SchedEvent.commitVotingStatus])) := by
  rcases r with _ | mid <;> simp [promote_item]

/-- Witness instantiating C9's amended theorem for both publish
outcomes. -/
theorem C9_publish_then_commit_witness :
    (promote_item dbSched 1 "PM" none).1 = dbSched ∧
    promote_item dbSched 1 "PM" (some 99) =
      (promoteWrite dbSched 1 "PM" 99,
        [SchedEvent.publishAttempt, SchedEvent.commitVotingStatus]) :=
  ⟨(C9_publish_then_commit dbSched 1 "PM" none).2.1 rfl,
    (C9_publish_then_commit dbSched 1 "PM" (some 99)).2.2 99 rfl⟩

/-- commands/nominate.py, ensure_election_row: `INSERT OR IGNORE INTO
elections (guild_id, position, is_closed) VALUES (?, ?, 0)` — creates a
row with the legacy columns only when none exists. -/
def ensure_election_row (db : DB) (g : Nat) (p : String) : DB :=
  match findElection db g p with
  | some _ => db
  | none =>
      { db with elections := db.elections ++
          [⟨g, p, none, none, false, none, none, none, none⟩] }

/-- commands/nominate.py, add_nomination: insert the nominee row,
returning false on a primary-key conflict (already nominated). -/
def add_nomination (db : DB) (g : Nat) (p : String) (uid : Nat) (dn : String) :
    Bool × DB :=
  match findNomination db g p uid with
  | some _ => (false, db)
  | none =>
      (true, { db with nominations := db.nominations ++ [⟨g, p, uid, dn⟩] })

/-- The replies the /nominate command can give once the configuration
checks have passed. -/
inductive NominateOutcome where
  | closedMessage
  | alreadyNominated
  | inserted
deriving DecidableEq, Repr

/-- commands/nominate.py, NominateCommand.nominate (election-state
part, lines 240-261): ensure the election row exists, reject when
election_is_closed (the legacy `is_closed` flag) reports closed, then
insert the nomination.  No status, start_at or VOTING check occurs
anywhere on this path. -/
def nominate (db : DB) (g : Nat) (p : String) (uid : Nat) (dn : String) :
    NominateOutcome × DB :=
  let db1 := ensure_election_row db g p
  if election_is_closed db1 g p then (NominateOutcome.closedMessage, db1)
  else
    let r := add_nomination db1 g p uid dn
    (if r.1 then NominateOutcome.inserted else NominateOutcome.alreadyNominated, r.2)

/-- A store whose election has moved to VOTING (the scheduler has run),
with the legacy is_closed flag still 0 — as every row written by
open_election/close_election has it. -/
def dbVotingOpenClosedFlagZero : DB :=
  { elections := [⟨1, "PM", some "VOTING", some 0, false, none, some 55, some 9, some 0⟩],
    nominations := [],
    votes := [] }

/-- A store whose election was closed by /close_election: status is
CLOSED but the legacy is_closed flag was never written. -/
def dbStatusClosed : DB :=
  { elections := [⟨1, "PM", some "CLOSED", some 0, false, none, some 55, some 9, some 0⟩],
    nominations := [],
    votes := [] }

/-- C5 counterexample: a nomination on a VOTING election succeeds
(the claim requires NominationsClosed), and a nomination on a
status-CLOSED election also succeeds (the claim requires
ElectionClosed), because the nominate path checks only the legacy
is_closed flag, which close_election never sets. -/
theorem C5_counterexample_nominate_ignores_status :
    (nominate dbVotingOpenClosedFlagZero 1 "PM" 42 "Bob").1 =
      NominateOutcome.inserted ∧
    electionStatus dbVotingOpenClosedFlagZero 1 "PM" = some (some "VOTING") ∧
    (nominate dbStatusClosed 1 "PM" 42 "Bob").1 = NominateOutcome.inserted ∧
    electionStatus dbStatusClosed 1 "PM" = some (some "CLOSED") := by
  decide

/-- C5 (amended): Nominate is gated only on the legacy is_closed flag:
it fails with the closed message exactly when the election row exists
with is_closed set, and otherwise inserts the nomination unless the
nominee already has one.  It never consults status or start_at, so
nominations succeed on VOTING elections and on elections whose status
is CLOSED (close_election writes status, never is_closed). -/
theorem C5_nominate_gated_on_legacy_flag (db : DB) (g : Nat) (p : String)
    (uid : Nat) (dn : String) :
    ((nominate db g p uid dn).1 = NominateOutcome.closedMessage ↔
      election_is_closed db g p = true) ∧
    ((nominate db g p uid dn).1 = NominateOutcome.inserted ↔
      (election_is_closed db g p = false ∧ findNomination db g p uid = none)) ∧
    (election_is_closed db g p = false → findNomination db g p uid = none →
      (nominate db g p uid dn).2.nominations = db.nominations ++ [⟨g, p, uid, dn⟩]) ∧
    ((nominate db g p uid dn).1 ≠ NominateOutcome.inserted →
      (nominate db g p uid dn).2.nominations = db.nominations) := by
  have hic : election_is_closed (ensure_election_row db g p) g p =
      election_is_closed db g p := by
    rcases hfe : findElection db g p with _ | e
    · have h2 : findElection (ensure_election_row db g p) g p =
          some ⟨g, p, none, none, false, none, none, none, none⟩ := by
        unfold ensure_election_row
        rw [hfe]
        unfold findElection at hfe ⊢
        simp only [List.find?_append, hfe]
        simp
      unfold election_is_closed
      rw [h2, hfe]
    · have h2 : findElection (ensure_election_row db g p) g p = some e := by
        unfold ensure_election_row
        rw [hfe]
        exact hfe
      unfold election_is_closed
      rw [h2, hfe]
  have hfn : findNomination (ensure_election_row db g p) g p uid =
      findNomination db g p uid := by
    unfold ensure_election_row
    rcases findElection db g p with _ | e <;> rfl
  have hnoms : (ensure_election_row db g p).nominations = db.nominations := by
    unfold ensure_election_row
    rcases findElection db g p with _ | e <;> rfl
  rw [← hic, ← hfn]
  unfold nominate add_nomination
  rcases hc2 : election_is_closed (ensure_election_row db g p) g p
  · rcases hn : findNomination (ensure_election_row db g p) g p uid with _ | n <;>
      simp [hc2, hn, hnoms]
  · simp [hc2, hnoms]

/-- Witness instantiating C5's amended theorem at a concrete store. -/
theorem C5_nominate_gated_on_legacy_flag_witness :
    (nominate dbVotingOpenClosedFlagZero 1 "PM" 42 "Bob").2.nominations =
      [⟨1, "PM", 42, "Bob"⟩] := by
  have h := (C5_nominate_gated_on_legacy_flag dbVotingOpenClosedFlagZero
    1 "PM" 42 "Bob").2.2.1 (by decide) (by decide)
  simpa using h

/-- commands/open_election.py, open_election (store part, lines
122-146): upsert the election row to SCHEDULED with the given start
instant (on conflict only status, start_at and vote_message_id are
rewritten; created_by/created_at/nominee_message_id keep their old
values), then `DELETE FROM votes WHERE guild_id = ? AND position = ?`,
and, only when clear_nominees was requested, `DELETE FROM nominations
WHERE guild_id = ? AND position = ?`. -/
def open_election_db (db : DB) (g : Nat) (p : String) (startAt : Int)
    (uid : Nat) (createdAt : Int) (clear_nominees : Bool) : DB :=
  let db1 : DB :=
    match findElection db g p with
    | none =>
        { db with elections := db.elections ++
            [⟨g, p, some "SCHEDULED", some startAt, false, none, none,
              some uid, some createdAt⟩] }
    | some _ =>
        { db with elections := db.elections.map fun e =>
            if e.guild_id == g && e.position == p then
              { e with status := some "SCHEDULED", start_at := some startAt,
                       vote_message_id := none }
            else e }
  let db2 :=
    { db1 with
      votes := db1.votes.filter (fun r => !(r.guild_id == g && r.position == p)) }
  if clear_nominees then
    { db2 with
      nominations :=
        db2.nominations.filter (fun n => !(n.guild_id == g && n.position == p)) }
  else db2

/-- commands/open_election.py, lines 190-194: after posting a fresh
nominees message, `UPDATE elections SET nominee_message_id = ? WHERE
guild_id = ? AND position = ?`. -/
def set_nominee_message_id (db : DB) (g : Nat) (p : String) (mid : Nat) : DB :=
  { db with elections := db.elections.map fun e =>
      if e.guild_id == g && e.position == p then
        { e with nominee_message_id := some mid }
      else e }

/-- Filtering by one key never touches rows of a different key:
generic frame fact for the keyed DELETEs and keyed UPDATEs above. -/
theorem filter_erase_other_key {α : Type} (keyg : α → Nat) (keyp : α → String)
    (l : List α) (g g2 : Nat) (p p2 : String) (hne : ¬(g2 = g ∧ p2 = p)) :
    (l.filter (fun r => !(keyg r == g && keyp r == p))).filter
        (fun r => keyg r == g2 && keyp r == p2) =
      l.filter (fun r => keyg r == g2 && keyp r == p2) := by
  induction l with
  | nil => rfl
  | cons x xs ih =>
      by_cases hx : (keyg x == g2 && keyp x == p2) = true
      · have hxother : (!(keyg x == g && keyp x == p)) = true := by
          simp at hx ⊢
          by_contra hcon
          push_neg at hcon
          exact hne ⟨hx.1.symm.trans hcon.1, hx.2.symm.trans hcon.2⟩
        rw [List.filter_cons, if_pos hxother]
        rw [List.filter_cons, if_pos hx, List.filter_cons, if_pos hx, ih]
      · rw [List.filter_cons]
        by_cases hxo : (!(keyg x == g && keyp x == p)) = true
        · rw [if_pos hxo, List.filter_cons, if_neg hx, List.filter_cons, if_neg hx, ih]
        · rw [if_neg hxo, List.filter_cons, if_neg hx, ih]

/-- A keyed UPDATE that rewrites only rows of one key and preserves key
columns leaves the lookup of any other key unchanged. -/
theorem find?_map_keyed_update (l : List ElectionRow) (g g2 : Nat) (p p2 : String)
    (t : ElectionRow → ElectionRow)
    (hkeep : ∀ e, (t e).guild_id = e.guild_id ∧ (t e).position = e.position)
    (hne : ¬(g2 = g ∧ p2 = p)) :
    (l.map (fun e => if e.guild_id == g && e.position == p then t e else e)).find?
        (fun e => e.guild_id == g2 && e.position == p2) =
      l.find? (fun e => e.guild_id == g2 && e.position == p2) := by
  induction l with
  | nil => rfl
  | cons x xs ih =>
      simp only [List.map_cons]
      by_cases hk : (x.guild_id == g && x.position == p) = true
      · rw [if_pos hk]
        by_cases hq : (x.guild_id == g2 && x.position == p2) = true
        · exfalso
          simp at hk hq
          exact hne ⟨hq.1.symm.trans hk.1, hq.2.symm.trans hk.2⟩
        · have hq2 : ((t x).guild_id == g2 && (t x).position == p2) = false := by
            rw [(hkeep x).1, (hkeep x).2]
            exact eq_false_of_ne_true hq
          simp [-List.find?_map, hq2, eq_false_of_ne_true hq]
          simpa [-List.find?_map] using ih
      · rw [if_neg hk]
        by_cases hq : (x.guild_id == g2 && x.position == p2) = true
        · simp [hq]
        · simp [-List.find?_map, eq_false_of_ne_true hq]
          simpa [-List.find?_map] using ih

/-- Surviving a key-erasing DELETE and then filtering for a different
key is the same as filtering the original list. -/
theorem filter_after_keyed_delete {α : Type} (keyg : α → Nat) (keyp : α → String)
    (l : List α) (g g2 : Nat) (p p2 : String) (hne : ¬(g2 = g ∧ p2 = p)) :
    (l.filter (fun r => !(keyg r == g && keyp r == p))).filter
        (fun r => keyg r == g2 && keyp r == p2) =
      l.filter (fun r => keyg r == g2 && keyp r == p2) :=
  filter_erase_other_key keyg keyp l g g2 p p2 hne

/-- A keyed DELETE leaves nothing that matches its own key. -/
theorem filter_own_key_after_delete {α : Type} (q : α → Bool) (l : List α) :
    (l.filter (fun x => !(q x))).filter q = [] := by
  rw [List.filter_eq_nil_iff]
  intro a ha
  have h2 := (List.mem_filter.mp ha).2
  intro hq
  rw [hq] at h2
  cases h2

/-- C8: re-running Schedule on a position always deletes all vote rows
for exactly that (guild, position); it deletes nomination rows for that
key only when clear_nominees is requested; and neither the upsert, the
deletes, nor the later nominee-message update touches votes,
nominations, or the election row of any other key. -/
theorem C8_reschedule_frame (db : DB) (g : Nat) (p : String) (startAt : Int)
    (uid : Nat) (createdAt : Int) (clear : Bool) (mid : Nat)
    (g2 : Nat) (p2 : String) (hne : ¬(g2 = g ∧ p2 = p)) :
    votesFor (open_election_db db g p startAt uid createdAt clear) g p = [] ∧
    nominationsFor (open_election_db db g p startAt uid createdAt clear) g p =
      (if clear then [] else nominationsFor db g p) ∧
    votesFor (open_election_db db g p startAt uid createdAt clear) g2 p2 =
      votesFor db g2 p2 ∧
    nominationsFor (open_election_db db g p startAt uid createdAt clear) g2 p2 =
      nominationsFor db g2 p2 ∧
    findElection (open_election_db db g p startAt uid createdAt clear) g2 p2 =
      findElection db g2 p2 ∧
    findElection (set_nominee_message_id
        (open_election_db db g p startAt uid createdAt clear) g p mid) g2 p2 =
      findElection db g2 p2 := by
  have hv : (open_election_db db g p startAt uid createdAt clear).votes =
      db.votes.filter (fun r => !(r.guild_id == g && r.position == p)) := by
    unfold open_election_db
    rcases findElection db g p with _ | e <;> rcases clear <;> rfl
  have hn : (open_election_db db g p startAt uid createdAt clear).nominations =
      (if clear then
        db.nominations.filter (fun n => !(n.guild_id == g && n.position == p))
      else db.nominations) := by
    unfold open_election_db
    rcases findElection db g p with _ | e <;> rcases clear <;> rfl
  have hkey : ((g == g2) && (p == p2)) = false := by
    apply eq_false_of_ne_true
    intro hcon
    simp at hcon
    exact hne ⟨hcon.1.symm, hcon.2.symm⟩
  have hfe2 : findElection (open_election_db db g p startAt uid createdAt clear)
      g2 p2 = findElection db g2 p2 := by
    unfold open_election_db
    rcases hfd : findElection db g p with _ | e <;> rcases clear <;>
      simp only [hfd] <;> unfold findElection
    · simp [List.find?_append, hkey]
    · simp [List.find?_append, hkey]
    · exact find?_map_keyed_update db.elections g g2 p p2
        (fun e => { e with status := some "SCHEDULED", start_at := some startAt,
                            vote_message_id := none })
        (fun e => ⟨rfl, rfl⟩) hne
    · exact find?_map_keyed_update db.elections g g2 p p2
        (fun e => { e with status := some "SCHEDULED", start_at := some startAt,
                            vote_message_id := none })
        (fun e => ⟨rfl, rfl⟩) hne
  refine ⟨?_, ?_, ?_, ?_, hfe2, ?_⟩
  · unfold votesFor
    rw [hv]
    exact filter_own_key_after_delete _ db.votes
  · unfold nominationsFor
    rw [hn]
    rcases clear
    · rfl
    · simp only [if_pos]
      exact filter_own_key_after_delete _ db.nominations
  · unfold votesFor
    rw [hv]
    exact filter_after_keyed_delete (fun r => r.guild_id) (fun r => r.position)
      db.votes g g2 p p2 hne
  · unfold nominationsFor
    rw [hn]
    rcases clear
    · rfl
    · simp only [if_pos]
      exact filter_after_keyed_delete (fun n => n.guild_id) (fun n => n.position)
        db.nominations g g2 p p2 hne
  · unfold set_nominee_message_id
    unfold findElection
    have hstep := find?_map_keyed_update
      (open_election_db db g p startAt uid createdAt clear).elections g g2 p p2
      (fun e => { e with nominee_message_id := some mid })
      (fun e => ⟨rfl, rfl⟩) hne
    rw [hstep]
    exact hfe2

/-- Witness instantiating C8 at a concrete populated store. -/
theorem C8_reschedule_frame_witness :
    votesFor (open_election_db dbTieLabels 1 "PM" 50 9 40 false) 1 "PM" = [] ∧
    nominationsFor (open_election_db dbTieLabels 1 "PM" 50 9 40 false) 1 "PM" =
      nominationsFor dbTieLabels 1 "PM" ∧
    findElection (open_election_db dbTieLabels 1 "PM" 50 9 40 false) 2 "VP" =
      findElection dbTieLabels 2 "VP" := by
  have h := C8_reschedule_frame dbTieLabels 1 "PM" 50 9 40 false 77 2 "VP"
    (by decide)
  exact ⟨h.1, h.2.1, h.2.2.2.2.1⟩

/-- A table as created by db.py's init_db: its name and column list. -/
structure TableSchema where
  name : String
  columns : List String
deriving DecidableEq, Repr

/-- The schema init_db creates (db.py, lines 58-116): guild_settings,
elections with the legacy is_closed flag, nominations, and votes
without a candidate_id column.  No motions or motion_votes tables are
created anywhere. -/
def init_db_schema : List TableSchema :=
  [⟨"guild_settings",
      ["guild_id", "elections_channel_id", "logs_channel_id",
        "admin_role_id", "voter_role_id"]⟩,
    ⟨"elections", ["guild_id", "position", "is_closed"]⟩,
    ⟨"nominations", ["guild_id", "position", "user_id", "display_name"]⟩,
    ⟨"votes", ["guild_id", "position", "voter_id"]⟩]

/-- A statement's table access: the table it targets and the columns it
references. -/
structure SqlAccess where
  table : String
  columns : List String
deriving DecidableEq, Repr

/-- SQLite accepts a statement only if its table exists and every
referenced column exists in it; otherwise the statement raises an
OperationalError before touching any state. -/
def accessOk (schema : List TableSchema) (a : SqlAccess) : Bool :=
  match schema.find? (fun t => t.name == a.table) with
  | none => false
  | some t => a.columns.all (fun c => t.columns.contains c)

/-- main.py, VoteSelect.callback: `INSERT INTO votes (guild_id,
position, voter_id, candidate_id) VALUES (?, ?, ?, ?)`. -/
def main_vote_insert : SqlAccess :=
  ⟨"votes", ["guild_id", "position", "voter_id", "candidate_id"]⟩

/-- commands/nominate.py, record_vote: the same four-column insert into
votes. -/
def record_vote_insert : SqlAccess :=
  ⟨"votes", ["guild_id", "position", "voter_id", "candidate_id"]⟩

/-- commands/open_election.py, the Schedule upsert: `INSERT INTO
elections (guild_id, position, status, start_at, nominee_message_id,
vote_message_id, created_by, created_at) ...`. -/
def schedule_upsert : SqlAccess :=
  ⟨"elections",
    ["guild_id", "position", "status", "start_at", "nominee_message_id",
      "vote_message_id", "created_by", "created_at"]⟩

/-- main.py, VoteSelect.callback: `SELECT status FROM elections ...`. -/
def status_read : SqlAccess := ⟨"elections", ["status"]⟩

/-- main.py, election_scheduler scan: `SELECT guild_id, position,
start_at FROM elections WHERE status = 'SCHEDULED'`. -/
def scheduler_scan_read : SqlAccess :=
  ⟨"elections", ["guild_id", "position", "start_at", "status"]⟩

/-- commands/motions.py, motion_create: the insert into motions. -/
def motion_create_insert : SqlAccess :=
  ⟨"motions",
    ["guild_id", "kind", "title", "text", "status", "opens_at", "closes_at",
      "created_by", "public_votes"]⟩

/-- commands/motions.py, MotionVoteView.cast: `INSERT INTO motion_votes
(guild_id, motion_id, voter_id, choice) VALUES (?, ?, ?, ?)`. -/
def motion_vote_insert : SqlAccess :=
  ⟨"motion_votes", ["guild_id", "motion_id", "voter_id", "choice"]⟩

/-- C10: against the schema init_db actually creates, every election
vote insert, the Schedule upsert, the status reads of the voting and
scheduling paths, and every motion statement fail with a database error
instead of recording state: votes lacks candidate_id; elections has
is_closed but none of status, start_at, nominee_message_id,
vote_message_id; and the motions and motion_votes tables do not
exist. -/
theorem C10_init_db_schema_mismatch :
    accessOk init_db_schema main_vote_insert = false ∧
    accessOk init_db_schema record_vote_insert = false ∧
    accessOk init_db_schema schedule_upsert = false ∧
    accessOk init_db_schema status_read = false ∧
    accessOk init_db_schema scheduler_scan_read = false ∧
    accessOk init_db_schema motion_create_insert = false ∧
    accessOk init_db_schema motion_vote_insert = false ∧
    (init_db_schema.find? (fun t => t.name == "votes")).map
      (fun t => t.columns.contains "candidate_id") = some false ∧
    (init_db_schema.find? (fun t => t.name == "elections")).map
      (fun t => t.columns.contains "is_closed") = some true ∧
    (init_db_schema.find? (fun t => t.name == "elections")).map
      (fun t => (t.columns.contains "status" || t.columns.contains "start_at" ||
        t.columns.contains "nominee_message_id" ||
        t.columns.contains "vote_message_id")) = some false ∧
    init_db_schema.find? (fun t => t.name == "motions") = none ∧
    init_db_schema.find? (fun t => t.name == "motion_votes") = none := by
  decide

end Borealia
















